import Mathlib

/-!
Shallow embedding of the Payme merchant server (`src/server.js`): the
donation/transaction data model, the persistence helpers, and the five
JSON-RPC merchant method handlers.  Times are `Nat` milliseconds, money
amounts are `Int` tiyins, transaction states are the integers used by the
source (`1 = Created`, `2 = Performed`, `-1 = CancelledBeforePerform`,
`-2 = CancelledAfterPerform`).  The Postgres store is modelled as in-memory
lists of rows; each handler is a pure function from the store and the call
time to the new store and an `Except`-style outcome.
-/

namespace Payme

/-- The constant `TRANSACTION_TTL_MS = 12 * 60 * 60 * 1000` from the source. -/
def TRANSACTION_TTL_MS : Nat := 12 * 60 * 60 * 1000

/-- A row of the `donations` table. -/
structure Donation where
  id : String
  amount : Int
  state : Int
  created_at : Nat
  deriving Repr, DecidableEq

/-- A transaction row, in the field naming used by `getTransaction`
(`paycomTxId` is the primary key `paycom_id`, `account` is `donation_id`). -/
structure Txn where
  paycomTxId : String
  account : String
  amount : Int
  state : Int
  create_time : Nat
  perform_time : Nat
  cancel_time : Nat
  reason : Option Int
  deriving Repr, DecidableEq

/-- The persistent store: the two tables. -/
structure Store where
  donations : List Donation
  transactions : List Txn
  deriving Repr, DecidableEq

/-- The error outcomes of the merchant handlers (`ERR` in the source). -/
inductive Err where
  | ACCOUNT
  | AMOUNT
  | NOT_FOUND
  | CANNOT_PERFORM
  deriving Repr, DecidableEq

/-- Point lookup `getDonation(donationId)` by donation id. -/
def getDonation (s : Store) (donationId : String) : Option Donation :=
  s.donations.find? (fun d => d.id = donationId)

/-- Point lookup `getTransaction(paycomTxId)` by primary key. -/
def getTransaction (s : Store) (paycomTxId : String) : Option Txn :=
  s.transactions.find? (fun r => r.paycomTxId = paycomTxId)

/-- The `ON CONFLICT ... DO UPDATE` row merge of `saveTransaction`: the update
path overwrites only `state`, `perform_time`, `cancel_time`, `reason`. -/
def updateRow (r tx : Txn) : Txn :=
  { r with
    state := tx.state
    perform_time := tx.perform_time
    cancel_time := tx.cancel_time
    reason := tx.reason }

/-- Upsert `saveTransaction(tx)`: insert-or-update keyed by `paycom_id`. -/
def saveTransaction (s : Store) (tx : Txn) : Store :=
  if s.transactions.any (fun r => r.paycomTxId = tx.paycomTxId) then
    { s with transactions :=
        s.transactions.map (fun r =>
          if r.paycomTxId = tx.paycomTxId then updateRow r tx else r) }
  else
    { s with transactions := s.transactions ++ [tx] }

/-- Update `setDonationState(donationId, state)`: single-field update. -/
def setDonationState (s : Store) (donationId : String) (st : Int) : Store :=
  { s with donations :=
      s.donations.map (fun d => if d.id = donationId then { d with state := st } else d) }

/-- Insertion of a row into a list sorted ascending by `create_time`
(models the `ORDER BY create_time ASC` of `listTransactions`). -/
def insertByCreateTime (r : Txn) : List Txn → List Txn
  | [] => [r]
  | x :: xs =>
      if r.create_time ≤ x.create_time then r :: x :: xs
      else x :: insertByCreateTime r xs

/-- Sorting ascending by `create_time`. -/
def sortByCreateTime : List Txn → List Txn
  | [] => []
  | x :: xs => insertByCreateTime x (sortByCreateTime xs)

/-- Range scan `listTransactions(from, to)` after the `from || 0, to || now()`
defaulting has been applied: rows with `create_time` in `[lo, hi]`, ascending. -/
def listTransactions (s : Store) (lo hi : Nat) : List Txn :=
  sortByCreateTime
    (s.transactions.filter (fun r => lo ≤ r.create_time ∧ r.create_time ≤ hi))

/-- The wire snapshot built by `txResponse(tx)`; `account` holds the donation
id that the source places under the configurable account field name. -/
structure TxResponse where
  transaction : String
  account : String
  create_time : Nat
  perform_time : Nat
  cancel_time : Nat
  amount : Int
  state : Int
  reason : Option Int
  deriving Repr, DecidableEq

/-- Builds the wire snapshot, `txResponse(tx)` in the source. -/
def txResponse (tx : Txn) : TxResponse :=
  { transaction := tx.paycomTxId
    account := tx.account
    create_time := tx.create_time
    perform_time := tx.perform_time
    cancel_time := tx.cancel_time
    amount := tx.amount
    state := tx.state
    reason := tx.reason }

/-- Expiry test `isExpired(tx)` at call time `t`:
`tx.create_time + TRANSACTION_TTL_MS < now()`. -/
def isExpired (tx : Txn) (t : Nat) : Bool :=
  tx.create_time + TRANSACTION_TTL_MS < t

/-- The cancelled transaction produced by `autoCancelExpired` at time `t`. -/
def expireTx (tx : Txn) (t : Nat) : Txn :=
  { tx with state := -1, cancel_time := t, reason := some 4 }

/-- Lazy expiry `autoCancelExpired(tx)`: if the transaction is `Created`
(state 1), move it to `CancelledBeforePerform` (state -1) with the fixed
reason 4 and persist. -/
def autoCancelExpired (s : Store) (tx : Txn) (t : Nat) : Store × Txn :=
  if tx.state ≠ 1 then (s, tx)
  else (saveTransaction s (expireTx tx t), expireTx tx t)

/-- The `if (isExpired(tx) && tx.state === 1) tx = await autoCancelExpired(tx)`
step shared by the handlers. -/
def applyTTL (s : Store) (tx : Txn) (t : Nat) : Store × Txn :=
  if isExpired tx t ∧ tx.state = 1 then autoCancelExpired s tx t else (s, tx)

/-- Handler `handleCheckPerform(res, id, donationId, amount)`; the success
payload `\x7b allow: true \x7d` is modelled as the boolean `allow`. -/
def handleCheckPerform (s : Store) (donationId : String) (amount : Int) :
    Store × Except Err Bool :=
  match getDonation s donationId with
  | none => (s, .error .ACCOUNT)
  | some donation =>
      if donation.amount ≠ amount then (s, .error .AMOUNT)
      else (s, .ok true)

/-- Handler `handleCreate(res, id, donationId, amount, paycomTxId)` at time `t`. -/
def handleCreate (s : Store) (t : Nat) (donationId : String) (amount : Int)
    (paycomTxId : String) : Store × Except Err TxResponse :=
  match getDonation s donationId with
  | none => (s, .error .ACCOUNT)
  | some donation =>
      if donation.amount ≠ amount then (s, .error .AMOUNT)
      else if donation.state = 2 then (s, .error .CANNOT_PERFORM)
      else
        match getTransaction s paycomTxId with
        | some tx =>
            if tx.account = donationId ∧ tx.amount = amount then
              let p := applyTTL s tx t
              (p.1, .ok (txResponse p.2))
            else (s, .error .CANNOT_PERFORM)
        | none =>
            let tx : Txn :=
              { paycomTxId := paycomTxId
                account := donationId
                amount := amount
                state := 1
                create_time := t
                perform_time := 0
                cancel_time := 0
                reason := none }
            let s1 := saveTransaction s tx
            let s2 := setDonationState s1 donationId 1
            (s2, .ok (txResponse tx))

/-- Handler `handlePerform(res, id, paycomTxId)` at time `t`. -/
def handlePerform (s : Store) (t : Nat) (paycomTxId : String) :
    Store × Except Err TxResponse :=
  match getTransaction s paycomTxId with
  | none => (s, .error .NOT_FOUND)
  | some tx0 =>
      let p := applyTTL s tx0 t
      let s1 := p.1
      let tx := p.2
      if tx.state = -1 ∨ tx.state = -2 then (s1, .error .CANNOT_PERFORM)
      else if tx.state = 2 then (s1, .ok (txResponse tx))
      else
        let tx2 := { tx with state := 2, perform_time := t }
        let s2 := saveTransaction s1 tx2
        let s3 := setDonationState s2 tx2.account 2
        (s3, .ok (txResponse tx2))

/-- Handler `handleCancel(res, id, paycomTxId, reason)` at time `t`. -/
def handleCancel (s : Store) (t : Nat) (paycomTxId : String) (reason : Int) :
    Store × Except Err TxResponse :=
  match getTransaction s paycomTxId with
  | none => (s, .error .NOT_FOUND)
  | some tx0 =>
      let p := applyTTL s tx0 t
      let s1 := p.1
      let tx := p.2
      if tx.state = -1 ∨ tx.state = -2 then (s1, .ok (txResponse tx))
      else
        let tx2 := { tx with
          state := if tx.state = 2 then -2 else -1
          cancel_time := t
          reason := some reason }
        let s2 := saveTransaction s1 tx2
        let s3 := setDonationState s2 tx2.account tx2.state
        (s3, .ok (txResponse tx2))

/-- Handler `handleCheck(res, id, paycomTxId)` at time `t`. -/
def handleCheck (s : Store) (t : Nat) (paycomTxId : String) :
    Store × Except Err TxResponse :=
  match getTransaction s paycomTxId with
  | none => (s, .error .NOT_FOUND)
  | some tx0 =>
      let p := applyTTL s tx0 t
      (p.1, .ok (txResponse p.2))

/-- Handler `handleStatement(res, id, from, to)` at time `t`: the source passes
`from || 0, to || now()` to `listTransactions`, so a zero (or absent) upper
bound falls back to the current time. -/
def handleStatement (s : Store) (t : Nat) (lo hi : Nat) :
    Store × Except Err (List TxResponse) :=
  (s, .ok ((listTransactions s (if lo = 0 then 0 else lo)
      (if hi = 0 then t else hi)).map txResponse))


/-- One merchant API call (method name and parameters), used to reason about
arbitrary sequences of calls. -/
inductive Call where
  | checkPerform (d : String) (a : Int)
  | create (d : String) (a : Int) (x : String)
  | perform (x : String)
  | cancel (x : String) (r : Int)
  | check (x : String)
  | statement (lo hi : Nat)
  deriving Repr, DecidableEq

/-- The store after dispatching one call at time `t`. -/
def step (s : Store) (t : Nat) (c : Call) : Store :=
  match c with
  | .checkPerform d a => (handleCheckPerform s d a).1
  | .create d a x => (handleCreate s t d a x).1
  | .perform x => (handlePerform s t x).1
  | .cancel x r => (handleCancel s t x r).1
  | .check x => (handleCheck s t x).1
  | .statement lo hi => (handleStatement s t lo hi).1

/-- The store after a sequence of timestamped calls. -/
def runSeq (s : Store) : List (Nat × Call) → Store
  | [] => s
  | p :: rest => runSeq (step s p.1 p.2) rest

/-- Ascending order on transactions by `create_time`. -/
def leCT (a b : Txn) : Prop := a.create_time ≤ b.create_time

/-- Per-row invariant: `perform_time` is non-zero exactly when the state is
`Performed` (2) or `CancelledAfterPerform` (-2). -/
def txInv (r : Txn) : Prop :=
  r.perform_time ≠ 0 ↔ (r.state = 2 ∨ r.state = -2)

/-- The invariant over every persisted transaction row. -/
def StoreInv (s : Store) : Prop :=
  ∀ r ∈ s.transactions, txInv r

/-- The write-once fields of a transaction row: primary key, donation id,
amount, creation time. -/
def keyFields (r : Txn) : String × String × Int × Nat :=
  (r.paycomTxId, r.account, r.amount, r.create_time)

/-- Every store a handler can produce is the input store, a single upsert on
it, or an upsert followed by a donation-state update. -/
def builtFrom (s s2 : Store) : Prop :=
  s2 = s ∨ (∃ tx2, s2 = saveTransaction s tx2) ∨
    (∃ tx2 i st, s2 = setDonationState (saveTransaction s tx2) i st)


/-- The cancelled transaction written by `handleCancel` at time `t` with the
caller-supplied `reason`. -/
def cancelTx (tx : Txn) (t : Nat) (r : Int) : Txn :=
  { tx with state := if tx.state = 2 then -2 else -1, cancel_time := t, reason := some r }

/-- The performed transaction written by `handlePerform` at time `t`. -/
def performTx (tx : Txn) (t : Nat) : Txn :=
  { tx with state := 2, perform_time := t }

/-- Concrete donation used by the witnesses. -/
def wDon : Donation :=
  { id := "d1", amount := 100, state := 0, created_at := 1 }

/-- A second concrete donation used by the witnesses. -/
def wDon2 : Donation :=
  { id := "d2", amount := 100, state := 0, created_at := 1 }

/-- A concrete donation already in the `Paid` state (2). -/
def wDonPaid : Donation :=
  { id := "d1", amount := 100, state := 2, created_at := 1 }

/-- Concrete `Created` transaction used by the witnesses. -/
def wTx : Txn :=
  { paycomTxId := "tx1", account := "d1", amount := 100, state := 1,
    create_time := 50, perform_time := 0, cancel_time := 0, reason := none }

/-- Concrete store: one donation, one `Created` transaction. -/
def wStore : Store := { donations := [wDon], transactions := [wTx] }

/-- Concrete store with a donation and no transactions. -/
def wStoreNoTx : Store := { donations := [wDon], transactions := [] }

/-- Concrete store with two donations and one transaction. -/
def wStoreC6 : Store := { donations := [wDon, wDon2], transactions := [wTx] }

/-- Concrete store with a `Paid` donation. -/
def wStorePaid : Store := { donations := [wDonPaid], transactions := [] }

/-- Completely empty concrete store. -/
def emptyStore : Store := { donations := [], transactions := [] }

/-- A call time later than `wTx.create_time + TRANSACTION_TTL_MS`. -/
def tLate : Nat := 50 + TRANSACTION_TTL_MS + 1


/-- The fresh transaction row inserted by `handleCreate` at time `t`. -/
def newTx (d : String) (a : Int) (x : String) (t : Nat) : Txn :=
  { paycomTxId := x, account := d, amount := a, state := 1, create_time := t,
    perform_time := 0, cancel_time := 0, reason := none }

/-- Concrete `Performed` transaction used by the witnesses. -/
def wTxPerformed : Txn :=
  { paycomTxId := "tx1", account := "d1", amount := 100, state := 2,
    create_time := 50, perform_time := 60, cancel_time := 0, reason := none }

/-- Concrete store holding the performed transaction. -/
def wStorePerformed : Store :=
  { donations := [wDonPaid], transactions := [wTxPerformed] }

/-- Concrete transaction created at time 5, for the statement range scan. -/
def wTx5 : Txn :=
  { paycomTxId := "tx5", account := "d1", amount := 100, state := 1,
    create_time := 5, perform_time := 0, cancel_time := 0, reason := none }

/-- Concrete store for the statement range scan. -/
def cStore : Store := { donations := [], transactions := [wTx5] }

/-! ### Basic lemmas about the store operations -/

theorem getTransaction_key {s : Store} {x : String} {tx : Txn}
    (h : getTransaction s x = some tx) : tx.paycomTxId = x := by
  have := List.find?_some h
  simpa using this

theorem getDonation_key {s : Store} {d : String} {don : Donation}
    (h : getDonation s d = some don) : don.id = d := by
  have := List.find?_some h
  simpa using this

theorem getTransaction_mem {s : Store} {x : String} {tx : Txn}
    (h : getTransaction s x = some tx) : tx ∈ s.transactions :=
  List.mem_of_find?_eq_some h

theorem getDonation_saveTransaction (s : Store) (tx : Txn) (d : String) :
    getDonation (saveTransaction s tx) d = getDonation s d := by
  unfold getDonation saveTransaction
  split <;> rfl

theorem getTransaction_setDonationState (s : Store) (i : String) (st : Int)
    (x : String) :
    getTransaction (setDonationState s i st) x = getTransaction s x := rfl

theorem updateRow_paycomTxId (r tx : Txn) :
    (updateRow r tx).paycomTxId = r.paycomTxId := rfl

/-- Specialized `find?`-through-`map` lemma for maps that do not change the
transaction key. -/
theorem find?_map_txnKey (f : Txn → Txn) (hf : ∀ r, (f r).paycomTxId = r.paycomTxId)
    (l : List Txn) (k : String) :
    (l.map f).find? (fun r => r.paycomTxId = k) =
      (l.find? (fun r => r.paycomTxId = k)).map f := by
  induction l with
  | nil => rfl
  | cons x xs ih =>
      by_cases h : x.paycomTxId = k
      · simp [List.find?, hf, h]
      · simp [List.find?, hf, h, ih]

/-- Specialized `find?`-through-`map` lemma for maps that do not change the
donation id. -/
theorem find?_map_donKey (f : Donation → Donation) (hf : ∀ d, (f d).id = d.id)
    (l : List Donation) (k : String) :
    (l.map f).find? (fun d => d.id = k) =
      (l.find? (fun d => d.id = k)).map f := by
  induction l with
  | nil => rfl
  | cons x xs ih =>
      by_cases h : x.id = k
      · simp [List.find?, hf, h]
      · simp [List.find?, hf, h, ih]

theorem getDonation_setDonationState (s : Store) (i : String) (st : Int)
    (d : String) :
    getDonation (setDonationState s i st) d =
      (getDonation s d).map (fun don => if don.id = i then { don with state := st } else don) := by
  unfold getDonation setDonationState
  exact find?_map_donKey _ (fun don => by by_cases h : don.id = i <;> simp [h]) _ _

theorem any_key_eq_isSome (s : Store) (k : String) :
    (s.transactions.any (fun r => r.paycomTxId = k)) =
      (getTransaction s k).isSome := by
  unfold getTransaction
  induction s.transactions with
  | nil => rfl
  | cons x xs ih =>
      by_cases h : x.paycomTxId = k
      · simp [List.find?, h]
      · simp [List.find?, h, ih]

theorem getTransaction_save_self {s : Store} {tx r : Txn}
    (h : getTransaction s tx.paycomTxId = some r) :
    getTransaction (saveTransaction s tx) tx.paycomTxId = some (updateRow r tx) := by
  unfold saveTransaction
  rw [any_key_eq_isSome, h]
  simp only [Option.isSome_some, if_true]
  unfold getTransaction at h ⊢
  simp only []
  rw [find?_map_txnKey (fun r => if r.paycomTxId = tx.paycomTxId then updateRow r tx else r)
    (fun r => by by_cases hr : r.paycomTxId = tx.paycomTxId <;> simp [hr, updateRow_paycomTxId])]
  rw [h]
  have hk : r.paycomTxId = tx.paycomTxId := by
    have := List.find?_some h
    simpa using this
  simp [hk]

theorem getTransaction_save_fresh {s : Store} {tx : Txn}
    (h : getTransaction s tx.paycomTxId = none) :
    getTransaction (saveTransaction s tx) tx.paycomTxId = some tx := by
  unfold saveTransaction
  rw [any_key_eq_isSome, h]
  simp only [Option.isSome_none, Bool.false_eq_true, if_false]
  unfold getTransaction at h ⊢
  simp only []
  rw [List.find?_append, h]
  simp [List.find?]

theorem getTransaction_save_other {s : Store} {tx : Txn} {x : String}
    (h : x ≠ tx.paycomTxId) :
    getTransaction (saveTransaction s tx) x = getTransaction s x := by
  unfold saveTransaction
  split
  · unfold getTransaction
    simp only []
    rw [find?_map_txnKey (fun r => if r.paycomTxId = tx.paycomTxId then updateRow r tx else r)
      (fun r => by by_cases hr : r.paycomTxId = tx.paycomTxId <;> simp [hr, updateRow_paycomTxId])]
    cases hf : s.transactions.find? (fun r => r.paycomTxId = x) with
    | none => rfl
    | some r =>
        have hk : r.paycomTxId = x := by
          have := List.find?_some hf
          simpa using this
        simp [hk, h]
  · unfold getTransaction
    simp only []
    rw [List.find?_append]
    cases hf : s.transactions.find? (fun r => r.paycomTxId = x) with
    | none => simp [List.find?, Ne.symm h]
    | some r => rfl

theorem saveTransaction_length_of_exists {s : Store} {tx : Txn} {r : Txn}
    (h : getTransaction s tx.paycomTxId = some r) :
    (saveTransaction s tx).transactions.length = s.transactions.length := by
  unfold saveTransaction
  rw [any_key_eq_isSome, h]
  simp


/-! ### Sortedness of the statement range scan -/

theorem insertByCreateTime_perm (r : Txn) :
    ∀ l : List Txn, List.Perm (insertByCreateTime r l) (r :: l) := by
  intro l
  induction l with
  | nil => exact List.Perm.refl _
  | cons x xs ih =>
      unfold insertByCreateTime
      split
      · exact List.Perm.refl _
      · exact List.Perm.trans (List.Perm.cons x ih) (List.Perm.swap r x xs)

theorem sortByCreateTime_perm :
    ∀ l : List Txn, List.Perm (sortByCreateTime l) l := by
  intro l
  induction l with
  | nil => exact List.Perm.refl _
  | cons x xs ih =>
      unfold sortByCreateTime
      exact List.Perm.trans (insertByCreateTime_perm x _) (List.Perm.cons x ih)

theorem insertByCreateTime_pairwise (r : Txn) :
    ∀ l : List Txn, List.Pairwise leCT l →
      List.Pairwise leCT (insertByCreateTime r l) := by
  intro l
  induction l with
  | nil => intro _; simp [insertByCreateTime, List.pairwise_cons]
  | cons x xs ih =>
      intro h
      rw [List.pairwise_cons] at h
      unfold insertByCreateTime
      split
      · rename_i hle
        rw [List.pairwise_cons]
        refine ⟨?_, List.pairwise_cons.mpr h⟩
        intro b hb
        rcases List.mem_cons.mp hb with hb | hb
        · subst hb; exact hle
        · exact le_trans hle (h.1 b hb)
      · rename_i hgt
        rw [List.pairwise_cons]
        refine ⟨?_, ih h.2⟩
        intro b hb
        have hb2 : b ∈ r :: xs := (insertByCreateTime_perm r xs).mem_iff.mp hb
        rcases List.mem_cons.mp hb2 with hb2 | hb2
        · subst hb2
          exact le_of_not_le hgt
        · exact h.1 b hb2

theorem sortByCreateTime_pairwise :
    ∀ l : List Txn, List.Pairwise leCT (sortByCreateTime l) := by
  intro l
  induction l with
  | nil => simp [sortByCreateTime]
  | cons x xs ih =>
      unfold sortByCreateTime
      exact insertByCreateTime_pairwise x _ ih

theorem listTransactions_perm (s : Store) (lo hi : Nat) :
    List.Perm (listTransactions s lo hi)
      (s.transactions.filter (fun r => lo ≤ r.create_time ∧ r.create_time ≤ hi)) :=
  sortByCreateTime_perm _

theorem listTransactions_pairwise (s : Store) (lo hi : Nat) :
    List.Pairwise leCT (listTransactions s lo hi) :=
  sortByCreateTime_pairwise _

/-! ### The perform-time invariant -/

theorem txInv_updateRow {r tx : Txn} (h : txInv tx) : txInv (updateRow r tx) := by
  unfold txInv updateRow at *
  simpa using h

theorem StoreInv_save {s : Store} {tx : Txn} (hs : StoreInv s) (htx : txInv tx) :
    StoreInv (saveTransaction s tx) := by
  intro r hr
  unfold saveTransaction at hr
  split at hr
  · simp only [List.mem_map] at hr
    obtain ⟨r0, hr0, rfl⟩ := hr
    by_cases hk : r0.paycomTxId = tx.paycomTxId
    · simpa [hk] using txInv_updateRow (r := r0) htx
    · simpa [hk] using hs r0 hr0
  · simp only [List.mem_append, List.mem_singleton] at hr
    rcases hr with hr | hr
    · exact hs r hr
    · subst hr; exact htx

theorem setDonationState_transactions (s : Store) (i : String) (st : Int) :
    (setDonationState s i st).transactions = s.transactions := rfl

theorem StoreInv_setDonationState {s : Store} (hs : StoreInv s) (i : String)
    (st : Int) : StoreInv (setDonationState s i st) := by
  intro r hr
  exact hs r hr

theorem txInv_expireTx {tx : Txn} (h : txInv tx) (h1 : tx.state = 1) (t : Nat) :
    txInv (expireTx tx t) := by
  unfold txInv expireTx at *
  have hz : tx.perform_time = 0 := by
    by_contra hnz
    rcases h.mp hnz with h2 | h2 <;> omega
  simp [hz]


theorem txInv_of_state_one {tx : Txn} (h : txInv tx) (h1 : tx.state = 1) :
    tx.perform_time = 0 := by
  unfold txInv at h
  by_contra hnz
  rcases h.mp hnz with h2 | h2 <;> omega

theorem handleCheckPerform_store (s : Store) (d : String) (a : Int) :
    (handleCheckPerform s d a).1 = s := by
  unfold handleCheckPerform
  cases h : getDonation s d with
  | none => rfl
  | some don => by_cases h1 : don.amount ≠ a <;> simp [h1]

theorem handleStatement_store (s : Store) (t lo hi : Nat) :
    (handleStatement s t lo hi).1 = s := rfl

theorem StoreInv_handleCreate {s : Store} (hs : StoreInv s) (t : Nat)
    (d : String) (a : Int) (x : String) :
    StoreInv (handleCreate s t d a x).1 := by
  unfold handleCreate
  cases hdon : getDonation s d with
  | none => exact hs
  | some don =>
      by_cases h1 : don.amount ≠ a
      · simpa [h1] using hs
      · simp only [h1, if_false]
        by_cases h2 : don.state = 2
        · simpa [h2] using hs
        · simp only [h2, if_false]
          cases htx : getTransaction s x with
          | some tx =>
              by_cases h3 : tx.account = d ∧ tx.amount = a
              · simp only [h3, if_true, applyTTL, autoCancelExpired]
                by_cases h4 : isExpired tx t = true ∧ tx.state = 1
                · have hmem := getTransaction_mem htx
                  simp only [h4, if_true, h4.2, ne_eq, not_true_eq_false, if_false]
                  exact StoreInv_save hs (txInv_expireTx (hs tx hmem) h4.2 t)
                · simpa [h4] using hs
              · simpa [h3] using hs
          | none =>
              simp only []
              apply StoreInv_setDonationState
              apply StoreInv_save hs
              unfold txInv
              simp
      
theorem StoreInv_handlePerform {s : Store} (hs : StoreInv s) {t : Nat}
    (ht : 0 < t) (x : String) :
    StoreInv (handlePerform s t x).1 := by
  unfold handlePerform
  cases htx : getTransaction s x with
  | none => exact hs
  | some tx =>
      have hmem := getTransaction_mem htx
      simp only [applyTTL, autoCancelExpired]
      by_cases h4 : isExpired tx t = true ∧ tx.state = 1
      · simp only [h4.1, h4.2, true_and, and_self, if_true, ne_eq, not_true_eq_false,
          if_false, expireTx, true_or]
        exact StoreInv_save hs (txInv_expireTx (hs tx hmem) h4.2 t)
      · simp only [h4, if_false]
        by_cases h5 : tx.state = -1 ∨ tx.state = -2
        · simpa [h5] using hs
        · simp only [h5, if_false]
          by_cases h6 : tx.state = 2
          · simpa [h6] using hs
          · simp only [h6, if_false]
            apply StoreInv_setDonationState
            apply StoreInv_save hs
            unfold txInv
            simp
            omega

theorem StoreInv_handleCancel {s : Store} (hs : StoreInv s) (t : Nat)
    (x : String) (r : Int) :
    StoreInv (handleCancel s t x r).1 := by
  unfold handleCancel
  cases htx : getTransaction s x with
  | none => exact hs
  | some tx =>
      have hmem := getTransaction_mem htx
      simp only [applyTTL, autoCancelExpired]
      by_cases h4 : isExpired tx t = true ∧ tx.state = 1
      · simp only [h4.1, h4.2, true_and, and_self, if_true, ne_eq, not_true_eq_false,
          if_false, expireTx, true_or]
        exact StoreInv_save hs (txInv_expireTx (hs tx hmem) h4.2 t)
      · simp only [h4, if_false]
        by_cases h5 : tx.state = -1 ∨ tx.state = -2
        · simpa [h5] using hs
        · simp only [h5, if_false]
          apply StoreInv_setDonationState
          apply StoreInv_save hs
          have hinv := hs tx hmem
          unfold txInv at hinv ⊢
          by_cases h6 : tx.state = 2
          · have hnz : tx.perform_time ≠ 0 := hinv.mpr (Or.inl h6)
            simp [h6, hnz]
          · have hz : tx.perform_time = 0 := by
              by_contra hnz
              rcases hinv.mp hnz with h7 | h7
              · exact h6 h7
              · exact h5 (Or.inr h7)
            simp [h6, hz]

theorem StoreInv_handleCheck {s : Store} (hs : StoreInv s) (t : Nat)
    (x : String) :
    StoreInv (handleCheck s t x).1 := by
  unfold handleCheck
  cases htx : getTransaction s x with
  | none => exact hs
  | some tx =>
      have hmem := getTransaction_mem htx
      simp only [applyTTL, autoCancelExpired]
      by_cases h4 : isExpired tx t = true ∧ tx.state = 1
      · simp only [h4.1, h4.2, true_and, and_self, if_true, ne_eq, not_true_eq_false,
          if_false, expireTx]
        exact StoreInv_save hs (txInv_expireTx (hs tx hmem) h4.2 t)
      · simpa [h4] using hs

theorem StoreInv_step {s : Store} (hs : StoreInv s) {t : Nat} (ht : 0 < t)
    (c : Call) : StoreInv (step s t c) := by
  cases c with
  | checkPerform d a => rw [step, handleCheckPerform_store]; exact hs
  | create d a x => exact StoreInv_handleCreate hs t d a x
  | perform x => exact StoreInv_handlePerform hs ht x
  | cancel x r => exact StoreInv_handleCancel hs t x r
  | check x => exact StoreInv_handleCheck hs t x
  | statement lo hi => exact hs

theorem StoreInv_runSeq {s : Store} (hs : StoreInv s) :
    ∀ seq : List (Nat × Call), (∀ p ∈ seq, 0 < p.1) →
      StoreInv (runSeq s seq) := by
  intro seq
  induction seq generalizing s with
  | nil => intro _; exact hs
  | cons p rest ih =>
      intro hpos
      unfold runSeq
      exact ih (StoreInv_step hs (hpos p (List.mem_cons_self p rest)) p.2)
        (fun q hq => hpos q (List.mem_cons_of_mem p hq))


/-! ### Frame properties: key fields of persisted rows never change -/

theorem keyFields_updateRow (r tx : Txn) : keyFields (updateRow r tx) = keyFields r := rfl

theorem updateRow_of_same (tx tx2 : Txn)
    (h1 : tx2.paycomTxId = tx.paycomTxId) (h2 : tx2.account = tx.account)
    (h3 : tx2.amount = tx.amount) (h4 : tx2.create_time = tx.create_time) :
    updateRow tx tx2 = tx2 := by
  cases tx
  cases tx2
  simp_all [updateRow]

theorem saveTransaction_keyFields {s : Store} {tx r : Txn}
    (h : getTransaction s tx.paycomTxId = some r) :
    (saveTransaction s tx).transactions.map keyFields =
      s.transactions.map keyFields := by
  unfold saveTransaction
  rw [any_key_eq_isSome, h]
  simp only [Option.isSome_some, if_true, List.map_map]
  apply List.map_congr_left
  intro r0 _
  by_cases hk : r0.paycomTxId = tx.paycomTxId
  · simp [hk, Function.comp, keyFields_updateRow]
  · simp [hk, Function.comp]

theorem getTransaction_save_frame {s : Store} (tx2 : Txn) {x : String} {tx : Txn}
    (h : getTransaction s x = some tx) :
    ∃ tx3, getTransaction (saveTransaction s tx2) x = some tx3 ∧
      keyFields tx3 = keyFields tx := by
  by_cases hk : x = tx2.paycomTxId
  · subst hk
    exact ⟨updateRow tx tx2, getTransaction_save_self h, keyFields_updateRow tx tx2⟩
  · exact ⟨tx, by rw [getTransaction_save_other hk, h], rfl⟩

theorem builtFrom_frame {s s2 : Store} (hb : builtFrom s s2) {x : String}
    {tx : Txn} (h : getTransaction s x = some tx) :
    ∃ tx3, getTransaction s2 x = some tx3 ∧ keyFields tx3 = keyFields tx := by
  rcases hb with rfl | ⟨tx2, rfl⟩ | ⟨tx2, i, st, rfl⟩
  · exact ⟨tx, h, rfl⟩
  · exact getTransaction_save_frame tx2 h
  · rw [getTransaction_setDonationState]
    exact getTransaction_save_frame tx2 h

theorem builtFrom_handleCheckPerform (s : Store) (d : String) (a : Int) :
    builtFrom s (handleCheckPerform s d a).1 := by
  rw [handleCheckPerform_store]
  exact Or.inl rfl

theorem builtFrom_handleCreate (s : Store) (t : Nat) (d : String) (a : Int)
    (x : String) : builtFrom s (handleCreate s t d a x).1 := by
  unfold handleCreate
  cases hdon : getDonation s d with
  | none => exact Or.inl rfl
  | some don =>
      dsimp only
      by_cases h1 : don.amount ≠ a
      · rw [if_pos h1]
        exact Or.inl rfl
      · simp only [h1, if_false]
        by_cases h2 : don.state = 2
        · rw [if_pos h2]
          exact Or.inl rfl
        · simp only [h2, if_false]
          cases htx : getTransaction s x with
          | some tx =>
              by_cases h3 : tx.account = d ∧ tx.amount = a
              · simp only [h3, if_true, applyTTL, autoCancelExpired]
                by_cases h4 : isExpired tx t = true ∧ tx.state = 1
                · simp only [h4.1, h4.2, true_and, and_self, if_true, ne_eq,
                    not_true_eq_false, if_false]
                  exact Or.inr (Or.inl ⟨expireTx tx t, rfl⟩)
                · simp only [h4, if_false]
                  exact Or.inl rfl
              · simp only [h3, if_false]
                exact Or.inl rfl
          | none =>
              simp only []
              exact Or.inr (Or.inr ⟨_, d, 1, rfl⟩)

theorem builtFrom_handlePerform (s : Store) (t : Nat) (x : String) :
    builtFrom s (handlePerform s t x).1 := by
  unfold handlePerform
  cases htx : getTransaction s x with
  | none => exact Or.inl rfl
  | some tx =>
      simp only [applyTTL, autoCancelExpired]
      by_cases h4 : isExpired tx t = true ∧ tx.state = 1
      · simp only [h4.1, h4.2, true_and, and_self, if_true, ne_eq,
          not_true_eq_false, if_false, expireTx, true_or]
        exact Or.inr (Or.inl ⟨_, rfl⟩)
      · simp only [h4, if_false]
        by_cases h5 : tx.state = -1 ∨ tx.state = -2
        · simp only [h5, if_true]
          exact Or.inl rfl
        · simp only [h5, if_false]
          by_cases h6 : tx.state = 2
          · simp only [h6, if_true]
            exact Or.inl rfl
          · simp only [h6, if_false]
            exact Or.inr (Or.inr ⟨_, _, 2, rfl⟩)

theorem builtFrom_handleCancel (s : Store) (t : Nat) (x : String) (r : Int) :
    builtFrom s (handleCancel s t x r).1 := by
  unfold handleCancel
  cases htx : getTransaction s x with
  | none => exact Or.inl rfl
  | some tx =>
      simp only [applyTTL, autoCancelExpired]
      by_cases h4 : isExpired tx t = true ∧ tx.state = 1
      · simp only [h4.1, h4.2, true_and, and_self, if_true, ne_eq,
          not_true_eq_false, if_false, expireTx, true_or]
        exact Or.inr (Or.inl ⟨_, rfl⟩)
      · simp only [h4, if_false]
        by_cases h5 : tx.state = -1 ∨ tx.state = -2
        · simp only [h5, if_true]
          exact Or.inl rfl
        · simp only [h5, if_false]
          exact Or.inr (Or.inr ⟨_, _, _, rfl⟩)

theorem builtFrom_handleCheck (s : Store) (t : Nat) (x : String) :
    builtFrom s (handleCheck s t x).1 := by
  unfold handleCheck
  cases htx : getTransaction s x with
  | none => exact Or.inl rfl
  | some tx =>
      simp only [applyTTL, autoCancelExpired]
      by_cases h4 : isExpired tx t = true ∧ tx.state = 1
      · simp only [h4.1, h4.2, true_and, and_self, if_true, ne_eq,
          not_true_eq_false, if_false]
        exact Or.inr (Or.inl ⟨_, rfl⟩)
      · simp only [h4, if_false]
        exact Or.inl rfl

theorem builtFrom_step (s : Store) (t : Nat) (c : Call) :
    builtFrom s (step s t c) := by
  cases c with
  | checkPerform d a => exact builtFrom_handleCheckPerform s d a
  | create d a x => exact builtFrom_handleCreate s t d a x
  | perform x => exact builtFrom_handlePerform s t x
  | cancel x r => exact builtFrom_handleCancel s t x r
  | check x => exact builtFrom_handleCheck s t x
  | statement lo hi => exact Or.inl rfl

theorem runSeq_frame {s : Store} {x : String} {tx : Txn}
    (h : getTransaction s x = some tx) :
    ∀ seq : List (Nat × Call),
      ∃ tx3, getTransaction (runSeq s seq) x = some tx3 ∧
        keyFields tx3 = keyFields tx := by
  intro seq
  induction seq generalizing s tx with
  | nil => exact ⟨tx, h, rfl⟩
  | cons p rest ih =>
      obtain ⟨tx1, h1, hk1⟩ := builtFrom_frame (builtFrom_step s p.1 p.2) h
      obtain ⟨tx3, h3, hk3⟩ := ih h1
      exact ⟨tx3, h3, hk3.trans hk1⟩


/-! ### Claim theorems -/

theorem getTransaction_save_update {s : Store} {x : String} {tx tx2 : Txn}
    (htx : getTransaction s x = some tx)
    (hk : tx2.paycomTxId = tx.paycomTxId) (ha : tx2.account = tx.account)
    (hm : tx2.amount = tx.amount) (hc : tx2.create_time = tx.create_time) :
    getTransaction (saveTransaction s tx2) x = some tx2 := by
  have hkey := getTransaction_key htx
  have h0 : getTransaction s tx2.paycomTxId = some tx := by
    rw [hk, hkey]; exact htx
  have h1 := getTransaction_save_self h0
  rw [updateRow_of_same tx tx2 hk ha hm hc] at h1
  rw [hk, hkey] at h1
  exact h1

/-- C2: a `Created` transaction whose TTL has elapsed is transitioned to
`CancelledBeforePerform` (state -1) with the fixed expiry reason 4 and
persisted before the method logic of `PerformTransaction`, `CheckTransaction`,
`CancelTransaction`, or a repeat `CreateTransaction` runs; `PerformTransaction`
then fails with `CANNOT_PERFORM`, while check, cancel and repeat-create
observe the now-cancelled snapshot. -/
theorem claim_C2_ttl_expiry (s : Store) (t : Nat) (x : String) (tx : Txn)
    (r : Int) (htx : getTransaction s x = some tx) (hstate : tx.state = 1)
    (hexp : isExpired tx t = true) :
    (expireTx tx t).state = -1 ∧ (expireTx tx t).reason = some 4 ∧
    handlePerform s t x =
      (saveTransaction s (expireTx tx t), .error .CANNOT_PERFORM) ∧
    handleCheck s t x =
      (saveTransaction s (expireTx tx t), .ok (txResponse (expireTx tx t))) ∧
    handleCancel s t x r =
      (saveTransaction s (expireTx tx t), .ok (txResponse (expireTx tx t))) ∧
    getTransaction (saveTransaction s (expireTx tx t)) x =
      some (expireTx tx t) ∧
    (∀ d a don, getDonation s d = some don → don.amount = a → don.state ≠ 2 →
      tx.account = d → tx.amount = a →
      handleCreate s t d a x =
        (saveTransaction s (expireTx tx t), .ok (txResponse (expireTx tx t)))) := by
  have hcond : isExpired tx t = true ∧ tx.state = 1 := ⟨hexp, hstate⟩
  refine ⟨rfl, rfl, ?_, ?_, ?_, ?_, ?_⟩
  · unfold handlePerform
    simp only [htx, applyTTL, if_pos hcond, autoCancelExpired,
      if_neg (not_not_intro hstate)]
    have hneg : (expireTx tx t).state = -1 ∨ (expireTx tx t).state = -2 :=
      Or.inl rfl
    rw [if_pos hneg]
  · unfold handleCheck
    simp only [htx, applyTTL, if_pos hcond, autoCancelExpired,
      if_neg (not_not_intro hstate)]
  · unfold handleCancel
    simp only [htx, applyTTL, if_pos hcond, autoCancelExpired,
      if_neg (not_not_intro hstate)]
    have hneg : (expireTx tx t).state = -1 ∨ (expireTx tx t).state = -2 :=
      Or.inl rfl
    rw [if_pos hneg]
  · exact getTransaction_save_update htx rfl rfl rfl rfl
  · intro d a don hdon hda hds hacct hamt
    unfold handleCreate
    simp only [hdon, hda.symm ▸ (not_not_intro rfl : ¬don.amount ≠ don.amount)]
    rw [if_neg (not_not_intro hda)]
    rw [if_neg hds]
    simp only [htx]
    rw [if_pos ⟨hacct, hamt⟩]
    simp only [applyTTL, if_pos hcond, autoCancelExpired,
      if_neg (not_not_intro hstate)]

/-- Witness for C2: a concrete expired `Created` transaction makes
`PerformTransaction` fail with `CANNOT_PERFORM` after the auto-cancel, and
`CheckTransaction` observes the cancelled snapshot. -/
theorem claim_C2_witness :
    handlePerform wStore tLate "tx1" =
      (saveTransaction wStore (expireTx wTx tLate), .error .CANNOT_PERFORM) ∧
    handleCheck wStore tLate "tx1" =
      (saveTransaction wStore (expireTx wTx tLate),
        .ok (txResponse (expireTx wTx tLate))) := by
  have h := claim_C2_ttl_expiry wStore tLate "tx1" wTx 0 (by decide) rfl (by decide)
  exact ⟨h.2.2.1, h.2.2.2.1⟩

/-- C5: error precedence.  Creation-family calls report unknown-account and
amount-mismatch errors before any check involving an existing transaction
(the conclusion holds for every transactions table), and perform, cancel and
check report transaction-not-found before any state-legality decision. -/
theorem claim_C5_error_precedence :
    (∀ (s : Store) (t : Nat) (d : String) (a : Int) (x : String),
      getDonation s d = none →
      handleCheckPerform s d a = (s, .error .ACCOUNT) ∧
      handleCreate s t d a x = (s, .error .ACCOUNT)) ∧
    (∀ (s : Store) (t : Nat) (d : String) (a : Int) (x : String)
      (don : Donation), getDonation s d = some don → don.amount ≠ a →
      handleCheckPerform s d a = (s, .error .AMOUNT) ∧
      handleCreate s t d a x = (s, .error .AMOUNT)) ∧
    (∀ (s : Store) (t : Nat) (x : String) (r : Int),
      getTransaction s x = none →
      handlePerform s t x = (s, .error .NOT_FOUND) ∧
      handleCancel s t x r = (s, .error .NOT_FOUND) ∧
      handleCheck s t x = (s, .error .NOT_FOUND)) := by
  refine ⟨?_, ?_, ?_⟩
  · intro s t d a x h
    constructor
    · unfold handleCheckPerform
      simp only [h]
    · unfold handleCreate
      simp only [h]
  · intro s t d a x don h hne
    constructor
    · unfold handleCheckPerform
      simp only [h]
      rw [if_pos hne]
    · unfold handleCreate
      simp only [h]
      rw [if_pos hne]
  · intro s t x r h
    refine ⟨?_, ?_, ?_⟩
    · unfold handlePerform
      simp only [h]
    · unfold handleCancel
      simp only [h]
    · unfold handleCheck
      simp only [h]

/-- Witness for C5 at concrete inputs: empty store yields `ACCOUNT` and
`NOT_FOUND` errors, and an amount mismatch yields `AMOUNT`. -/
theorem claim_C5_witness :
    handleCheckPerform emptyStore "d1" 100 = (emptyStore, .error .ACCOUNT) ∧
    handleCreate wStore 60 "d1" 999 "tx1" = (wStore, .error .AMOUNT) ∧
    handlePerform emptyStore 5 "tx1" = (emptyStore, .error .NOT_FOUND) := by
  refine ⟨?_, ?_, ?_⟩
  · exact (claim_C5_error_precedence.1 emptyStore 5 "d1" 100 "tx1" rfl).1
  · exact (claim_C5_error_precedence.2.1 wStore 60 "d1" 999 "tx1" wDon rfl
      (by decide)).2
  · exact (claim_C5_error_precedence.2.2 emptyStore 5 "tx1" 0 rfl).1

/-- C6: a `CreateTransaction` whose external id matches an existing
transaction but whose donation id or amount differs from the stored values
fails with `CANNOT_PERFORM` and leaves the store (hence the stored row)
completely unchanged. -/
theorem claim_C6_conflicting_create (s : Store) (t : Nat) (d : String)
    (a : Int) (x : String) (don : Donation) (tx : Txn)
    (hdon : getDonation s d = some don) (hda : don.amount = a)
    (hds : don.state ≠ 2) (htx : getTransaction s x = some tx)
    (hconf : ¬(tx.account = d ∧ tx.amount = a)) :
    handleCreate s t d a x = (s, .error .CANNOT_PERFORM) := by
  unfold handleCreate
  simp only [hdon]
  rw [if_neg (not_not_intro hda)]
  rw [if_neg hds]
  simp only [htx]
  rw [if_neg hconf]

/-- Witness for C6: creating with the same external id but a different
donation id is rejected and the store is unchanged. -/
theorem claim_C6_witness :
    handleCreate wStoreC6 60 "d2" 100 "tx1" =
      (wStoreC6, .error .CANNOT_PERFORM) :=
  claim_C6_conflicting_create wStoreC6 60 "d2" 100 "tx1" wDon2 wTx (by decide)
    rfl (by decide) (by decide) (by decide)

/-- C10 (implicit): `CheckPerformTransaction` inspects only the donation
existence and amount, never its state: with a matching amount it returns
allow even when the donation is `Paid` (state 2), although `CreateTransaction`
for the same donation is then rejected with `CANNOT_PERFORM`. -/
theorem claim_C10_checkPerform_ignores_state (s : Store) (t : Nat)
    (d : String) (a : Int) (x : String) (don : Donation)
    (hdon : getDonation s d = some don) (hda : don.amount = a) :
    handleCheckPerform s d a = (s, .ok true) ∧
    (don.state = 2 → handleCreate s t d a x = (s, .error .CANNOT_PERFORM)) := by
  constructor
  · unfold handleCheckPerform
    simp only [hdon]
    rw [if_neg (not_not_intro hda)]
  · intro hp
    unfold handleCreate
    simp only [hdon]
    rw [if_neg (not_not_intro hda)]
    rw [if_pos hp]

/-- Witness for C10: a `Paid` donation still gets allow=true from
`CheckPerformTransaction` while `CreateTransaction` is rejected. -/
theorem claim_C10_witness :
    handleCheckPerform wStorePaid "d1" 100 = (wStorePaid, .ok true) ∧
    handleCreate wStorePaid 60 "d1" 100 "tx9" =
      (wStorePaid, .error .CANNOT_PERFORM) := by
  have h := claim_C10_checkPerform_ignores_state wStorePaid 60 "d1" 100 "tx9"
    wDonPaid (by decide) rfl
  exact ⟨h.1, h.2 rfl⟩


/-- C4: `PerformTransaction` is idempotent on a `Performed` transaction: it
returns the existing snapshot with no mutation and no error; performing a
valid `Created` transaction transitions it to `Performed` exactly once, and a
second `PerformTransaction` (at any later time) returns the same snapshot —
in particular the same `perform_time` — without changing the store. -/
theorem claim_C4_perform_idempotent (s : Store) (t t2 : Nat) (x : String)
    (tx : Txn) (htx : getTransaction s x = some tx) :
    (tx.state = 2 → handlePerform s t x = (s, .ok (txResponse tx))) ∧
    (tx.state = 1 → isExpired tx t = false →
      handlePerform s t x =
        (setDonationState (saveTransaction s (performTx tx t)) tx.account 2,
         .ok (txResponse (performTx tx t))) ∧
      handlePerform
          (setDonationState (saveTransaction s (performTx tx t)) tx.account 2)
          t2 x =
        (setDonationState (saveTransaction s (performTx tx t)) tx.account 2,
         .ok (txResponse (performTx tx t))) ∧
      (txResponse (performTx tx t)).perform_time = t) := by
  constructor
  · intro h2
    have hcn : ¬(isExpired tx t = true ∧ tx.state = 1) := by
      intro hc
      rw [h2] at hc
      exact absurd hc.2 (by decide)
    unfold handlePerform
    simp only [htx, applyTTL, if_neg hcn]
    simp [h2]
  · intro h1 hnexp
    have hcn : ¬(isExpired tx t = true ∧ tx.state = 1) := by
      intro hc
      rw [hnexp] at hc
      exact absurd hc.1 (by decide)
    refine ⟨?_, ?_, rfl⟩
    · unfold handlePerform
      simp only [htx, applyTTL, if_neg hcn]
      simp [h1, performTx]
    · have htx2 : getTransaction
          (setDonationState (saveTransaction s (performTx tx t)) tx.account 2)
          x = some (performTx tx t) := by
        rw [getTransaction_setDonationState]
        exact getTransaction_save_update htx rfl rfl rfl rfl
      have hcn2 : ¬(isExpired (performTx tx t) t2 = true ∧
          (performTx tx t).state = 1) := by
        intro hc
        have : (performTx tx t).state = 2 := rfl
        rw [this] at hc
        exact absurd hc.2 (by decide)
      unfold handlePerform
      simp only [htx2, applyTTL, if_neg hcn2]
      have hst : (performTx tx t).state = 2 := rfl
      simp [hst]

/-- Witness for C4: performing the concrete `Created` transaction and then
performing again returns the identical snapshot with the same perform time. -/
theorem claim_C4_witness :
    handlePerform wStore 60 "tx1" =
      (setDonationState (saveTransaction wStore (performTx wTx 60)) "d1" 2,
       .ok (txResponse (performTx wTx 60))) ∧
    handlePerform
        (setDonationState (saveTransaction wStore (performTx wTx 60)) "d1" 2)
        70 "tx1" =
      (setDonationState (saveTransaction wStore (performTx wTx 60)) "d1" 2,
       .ok (txResponse (performTx wTx 60))) := by
  have h := (claim_C4_perform_idempotent wStore 60 70 "tx1" wTx (by decide)).2
    rfl (by decide)
  exact ⟨h.1, h.2.1⟩

/-- C3: cancelling an existing, non-expired transaction moves a `Performed`
transaction to `CancelledAfterPerform` (-2) and any other to
`CancelledBeforePerform` (-1), setting `cancel_time` and the caller-supplied
reason and propagating the new state to the donation; cancelling an
already-cancelled transaction returns the snapshot with no mutation and no
error, so cancelling twice returns the identical snapshot both times. -/
theorem claim_C3_cancel_idempotent (s : Store) (t : Nat) (x : String)
    (tx : Txn) (r : Int) (htx : getTransaction s x = some tx)
    (hne : ¬(isExpired tx t = true ∧ tx.state = 1)) :
    ((tx.state = -1 ∨ tx.state = -2) →
      handleCancel s t x r = (s, .ok (txResponse tx))) ∧
    (¬(tx.state = -1 ∨ tx.state = -2) →
      handleCancel s t x r =
        (setDonationState (saveTransaction s (cancelTx tx t r)) tx.account
          (cancelTx tx t r).state,
         .ok (txResponse (cancelTx tx t r))) ∧
      (tx.state = 2 → (cancelTx tx t r).state = -2) ∧
      (tx.state ≠ 2 → (cancelTx tx t r).state = -1) ∧
      (cancelTx tx t r).cancel_time = t ∧
      (cancelTx tx t r).reason = some r ∧
      (cancelTx tx t r).perform_time = tx.perform_time ∧
      (∀ don, getDonation s tx.account = some don →
        getDonation (handleCancel s t x r).1 tx.account =
          some { don with state := (cancelTx tx t r).state })) ∧
    (∀ s2 snap, handleCancel s t x r = (s2, .ok snap) →
      handleCancel s2 t x r = (s2, .ok snap)) := by
  have hA : (tx.state = -1 ∨ tx.state = -2) →
      handleCancel s t x r = (s, .ok (txResponse tx)) := by
    intro hc
    unfold handleCancel
    simp only [htx, applyTTL, if_neg hne, if_pos hc]
  have hB : ¬(tx.state = -1 ∨ tx.state = -2) →
      handleCancel s t x r =
        (setDonationState (saveTransaction s (cancelTx tx t r)) tx.account
          (cancelTx tx t r).state,
         .ok (txResponse (cancelTx tx t r))) := by
    intro hc
    unfold handleCancel
    simp only [htx, applyTTL, if_neg hne, if_neg hc]
    rfl
  refine ⟨hA, ?_, ?_⟩
  · intro hc
    refine ⟨hB hc, fun h2 => by simp [cancelTx, h2],
      fun h2 => by simp [cancelTx, h2], rfl, rfl, rfl, ?_⟩
    intro don hdon
    rw [hB hc]
    dsimp only
    rw [getDonation_setDonationState, getDonation_saveTransaction, hdon]
    simp [getDonation_key hdon]
  · intro s2 snap h
    by_cases hc : tx.state = -1 ∨ tx.state = -2
    · rw [hA hc] at h
      simp only [Prod.mk.injEq, Except.ok.injEq] at h
      obtain ⟨h1, h2⟩ := h
      subst h1
      subst h2
      exact hA hc
    · rw [hB hc] at h
      simp only [Prod.mk.injEq, Except.ok.injEq] at h
      obtain ⟨h1, h2⟩ := h
      subst h1
      subst h2
      have htx2 : getTransaction
          (setDonationState (saveTransaction s (cancelTx tx t r)) tx.account
            (cancelTx tx t r).state) x = some (cancelTx tx t r) := by
        rw [getTransaction_setDonationState]
        exact getTransaction_save_update htx rfl rfl rfl rfl
      have hst2 : (cancelTx tx t r).state = -1 ∨ (cancelTx tx t r).state = -2 := by
        by_cases h2 : tx.state = 2 <;> simp [cancelTx, h2]
      have hne2 : ¬(isExpired (cancelTx tx t r) t = true ∧
          (cancelTx tx t r).state = 1) := by
        intro hcc
        rcases hst2 with hh | hh <;> rw [hh] at hcc <;>
          exact absurd hcc.2 (by decide)
      unfold handleCancel
      simp only [htx2, applyTTL, if_neg hne2, if_pos hst2]

/-- Witness for C3: cancelling the concrete `Created` transaction yields
`CancelledBeforePerform`, and cancelling again returns the identical
snapshot. -/
theorem claim_C3_witness :
    handleCancel wStore 60 "tx1" 5 =
      (setDonationState (saveTransaction wStore (cancelTx wTx 60 5)) "d1"
        (cancelTx wTx 60 5).state,
       .ok (txResponse (cancelTx wTx 60 5))) ∧
    handleCancel
        (setDonationState (saveTransaction wStore (cancelTx wTx 60 5)) "d1"
          (cancelTx wTx 60 5).state) 60 "tx1" 5 =
      (setDonationState (saveTransaction wStore (cancelTx wTx 60 5)) "d1"
        (cancelTx wTx 60 5).state,
       .ok (txResponse (cancelTx wTx 60 5))) := by
  have h := claim_C3_cancel_idempotent wStore 60 "tx1" wTx 5 (by decide)
    (by decide)
  have h1 := ((h.2.1 (by decide)).1)
  exact ⟨h1, h.2.2 _ _ h1⟩


/-- C1: a `CreateTransaction` that finds an existing transaction with the
same external id, donation id and amount returns that transaction's snapshot
(auto-cancelled first when TTL-expired) with no error and no second row;
and whenever a `CreateTransaction` succeeds, an identical repeat call returns
the identical snapshot and leaves the store (hence the single persisted row)
unchanged. -/
theorem claim_C1_create_idempotent :
    (∀ (s : Store) (t : Nat) (d : String) (a : Int) (x : String)
      (don : Donation) (tx : Txn),
      getDonation s d = some don → don.amount = a → don.state ≠ 2 →
      getTransaction s x = some tx → tx.account = d → tx.amount = a →
      handleCreate s t d a x =
        ((applyTTL s tx t).1, .ok (txResponse (applyTTL s tx t).2)) ∧
      (applyTTL s tx t).1.transactions.length = s.transactions.length) ∧
    (∀ (s : Store) (t : Nat) (d : String) (a : Int) (x : String)
      (s2 : Store) (snap : TxResponse),
      handleCreate s t d a x = (s2, .ok snap) →
      handleCreate s2 t d a x = (s2, .ok snap)) := by
  constructor
  · intro s t d a x don tx hdon hda hds htx hacct hamt
    constructor
    · unfold handleCreate
      simp only [hdon]
      rw [if_neg (not_not_intro hda)]
      rw [if_neg hds]
      simp only [htx]
      rw [if_pos ⟨hacct, hamt⟩]
    · unfold applyTTL
      by_cases h4 : isExpired tx t = true ∧ tx.state = 1
      · rw [if_pos h4]
        unfold autoCancelExpired
        rw [if_neg (not_not_intro h4.2)]
        have h0 : getTransaction s (expireTx tx t).paycomTxId = some tx := by
          show getTransaction s tx.paycomTxId = some tx
          rw [getTransaction_key htx]
          exact htx
        exact saveTransaction_length_of_exists h0
      · rw [if_neg h4]
  · intro s t d a x s2 snap h
    unfold handleCreate at h
    cases hdon : getDonation s d with
    | none =>
        rw [hdon] at h
        simp at h
    | some don =>
        rw [hdon] at h
        simp only [] at h
        by_cases h1 : don.amount ≠ a
        · rw [if_pos h1] at h
          simp at h
        · rw [if_neg h1] at h
          by_cases h2 : don.state = 2
          · rw [if_pos h2] at h
            simp at h
          · rw [if_neg h2] at h
            cases htx : getTransaction s x with
            | some tx =>
                rw [htx] at h
                simp only [] at h
                by_cases h3 : tx.account = d ∧ tx.amount = a
                · rw [if_pos h3] at h
                  by_cases h4 : isExpired tx t = true ∧ tx.state = 1
                  · have happ : applyTTL s tx t =
                        (saveTransaction s (expireTx tx t), expireTx tx t) := by
                      unfold applyTTL autoCancelExpired
                      rw [if_pos h4, if_neg (not_not_intro h4.2)]
                    rw [happ] at h
                    simp only [Prod.mk.injEq, Except.ok.injEq] at h
                    obtain ⟨hs2, hsnap⟩ := h
                    subst hs2
                    subst hsnap
                    have hdon2 : getDonation (saveTransaction s (expireTx tx t)) d =
                        some don := by
                      rw [getDonation_saveTransaction]
                      exact hdon
                    have htx2 : getTransaction (saveTransaction s (expireTx tx t)) x =
                        some (expireTx tx t) :=
                      getTransaction_save_update htx rfl rfl rfl rfl
                    have hcond3 : (expireTx tx t).account = d ∧
                        (expireTx tx t).amount = a := ⟨h3.1, h3.2⟩
                    have hcn : ¬(isExpired (expireTx tx t) t = true ∧
                        (expireTx tx t).state = 1) := by
                      intro hcc
                      have hst := hcc.2
                      simp [expireTx] at hst
                    unfold handleCreate
                    simp only [hdon2]
                    rw [if_neg h1]
                    rw [if_neg h2]
                    simp only [htx2]
                    rw [if_pos hcond3]
                    unfold applyTTL
                    rw [if_neg hcn]
                  · have happ : applyTTL s tx t = (s, tx) := by
                      unfold applyTTL
                      rw [if_neg h4]
                    rw [happ] at h
                    simp only [Prod.mk.injEq, Except.ok.injEq] at h
                    obtain ⟨hs2, hsnap⟩ := h
                    subst hs2
                    subst hsnap
                    unfold handleCreate
                    simp only [hdon]
                    rw [if_neg h1]
                    rw [if_neg h2]
                    simp only [htx]
                    rw [if_pos h3]
                    rw [happ]
                · rw [if_neg h3] at h
                  simp at h
            | none =>
                rw [htx] at h
                simp only [Prod.mk.injEq, Except.ok.injEq] at h
                obtain ⟨hs2, hsnap⟩ := h
                subst hs2
                subst hsnap
                show handleCreate
                    (setDonationState (saveTransaction s (newTx d a x t)) d 1)
                    t d a x =
                  (setDonationState (saveTransaction s (newTx d a x t)) d 1,
                    .ok (txResponse (newTx d a x t)))
                have hda : don.amount = a := of_not_not h1
                have hdon2 : getDonation
                    (setDonationState (saveTransaction s (newTx d a x t)) d 1) d =
                    some { don with state := 1 } := by
                  rw [getDonation_setDonationState, getDonation_saveTransaction,
                    hdon]
                  simp [getDonation_key hdon]
                have htx2 : getTransaction
                    (setDonationState (saveTransaction s (newTx d a x t)) d 1) x =
                    some (newTx d a x t) := by
                  rw [getTransaction_setDonationState]
                  exact getTransaction_save_fresh htx
                have h1b : ¬(({ don with state := 1 } : Donation).amount ≠ a) := h1
                have h2b : ¬(({ don with state := 1 } : Donation).state = 2) := by
                  simp
                have hcond3 : (newTx d a x t).account = d ∧
                    (newTx d a x t).amount = a := ⟨rfl, rfl⟩
                have hcn : ¬(isExpired (newTx d a x t) t = true ∧
                    (newTx d a x t).state = 1) := by
                  intro hcc
                  have hlt := hcc.1
                  unfold isExpired newTx at hlt
                  simp at hlt
                unfold handleCreate
                simp only [hdon2]
                rw [if_neg h1b]
                rw [if_neg h2b]
                simp only [htx2]
                rw [if_pos hcond3]
                unfold applyTTL
                rw [if_neg hcn]

/-- Witness for C1: a repeat create on the concrete store returns the stored
snapshot with the store untouched, and the repeat of a fresh create returns
the identical snapshot. -/
theorem claim_C1_witness :
    handleCreate wStore 60 "d1" 100 "tx1" = (wStore, .ok (txResponse wTx)) ∧
    handleCreate (handleCreate wStoreNoTx 60 "d1" 100 "tx1").1 60 "d1" 100
        "tx1" =
      ((handleCreate wStoreNoTx 60 "d1" 100 "tx1").1,
        .ok (txResponse (newTx "d1" 100 "tx1" 60))) := by
  constructor
  · have h := (claim_C1_create_idempotent.1 wStore 60 "d1" 100 "tx1" wDon wTx
      (by decide) rfl (by decide) (by decide) rfl rfl).1
    rw [h]
    exact rfl
  · exact claim_C1_create_idempotent.2 wStoreNoTx 60 "d1" 100 "tx1" _ _ rfl

/-- C7: over every sequence of calls (at positive times) the invariant
\"`perform_time` is non-zero exactly when the state is `Performed` or
`CancelledAfterPerform`\" is preserved; in particular `CancelTransaction` on a
`Performed` transaction writes `CancelledAfterPerform` while keeping the
original `perform_time`. -/
theorem claim_C7_perform_time_invariant :
    (∀ (s : Store) (seq : List (Nat × Call)),
      StoreInv s → (∀ p ∈ seq, 0 < p.1) → StoreInv (runSeq s seq)) ∧
    (∀ (s : Store) (t : Nat) (x : String) (tx : Txn) (r : Int),
      getTransaction s x = some tx → tx.state = 2 →
      handleCancel s t x r =
        (setDonationState (saveTransaction s (cancelTx tx t r)) tx.account
          (cancelTx tx t r).state,
         .ok (txResponse (cancelTx tx t r))) ∧
      (cancelTx tx t r).perform_time = tx.perform_time ∧
      (cancelTx tx t r).state = -2 ∧
      getTransaction (handleCancel s t x r).1 x = some (cancelTx tx t r)) := by
  constructor
  · intro s seq hs hpos
    exact StoreInv_runSeq hs seq hpos
  · intro s t x tx r htx h2
    have hne : ¬(isExpired tx t = true ∧ tx.state = 1) := by
      intro hc
      rw [h2] at hc
      exact absurd hc.2 (by decide)
    have hc : ¬(tx.state = -1 ∨ tx.state = -2) := by
      rw [h2]
      decide
    have heq : handleCancel s t x r =
        (setDonationState (saveTransaction s (cancelTx tx t r)) tx.account
          (cancelTx tx t r).state,
         .ok (txResponse (cancelTx tx t r))) := by
      unfold handleCancel
      simp only [htx, applyTTL, if_neg hne, if_neg hc]
      rfl
    refine ⟨heq, rfl, by simp [cancelTx, h2], ?_⟩
    rw [heq]
    dsimp only
    rw [getTransaction_setDonationState]
    exact getTransaction_save_update htx rfl rfl rfl rfl

/-- Witness for C7: the invariant holds after a concrete perform-then-cancel
sequence, and cancelling the concrete performed transaction keeps its
perform time. -/
theorem claim_C7_witness :
    StoreInv (runSeq wStore [(60, Call.perform "tx1"), (70, Call.cancel "tx1" 5)]) ∧
    (cancelTx wTxPerformed 70 5).perform_time = wTxPerformed.perform_time := by
  constructor
  · have hs : StoreInv wStore := by
      intro r hr
      have hr2 : r = wTx := by simpa [wStore] using hr
      subst hr2
      unfold txInv
      decide
    exact claim_C7_perform_time_invariant.1 wStore
      [(60, Call.perform "tx1"), (70, Call.cancel "tx1" 5)] hs (by decide)
  · exact (claim_C7_perform_time_invariant.2 wStorePerformed 70 "tx1"
      wTxPerformed 5 (by decide) rfl).2.1

/-- C8: the transaction upsert, keyed by external id, overwrites only
`state`, `perform_time`, `cancel_time` and `reason` on its update path (the
key fields of every row are unchanged), and over every sequence of calls a
persisted transaction keeps its `amount`, donation id and `create_time`. -/
theorem claim_C8_write_once_fields :
    (∀ (s : Store) (tx r : Txn), getTransaction s tx.paycomTxId = some r →
      (saveTransaction s tx).transactions.map keyFields =
        s.transactions.map keyFields) ∧
    (∀ (s : Store) (x : String) (tx : Txn) (seq : List (Nat × Call)),
      getTransaction s x = some tx →
      ∃ tx3, getTransaction (runSeq s seq) x = some tx3 ∧
        tx3.amount = tx.amount ∧ tx3.account = tx.account ∧
        tx3.create_time = tx.create_time) := by
  constructor
  · intro s tx r h
    exact saveTransaction_keyFields h
  · intro s x tx seq h
    obtain ⟨tx3, h3, hk⟩ := runSeq_frame h seq
    unfold keyFields at hk
    simp only [Prod.mk.injEq] at hk
    exact ⟨tx3, h3, hk.2.2.1, hk.2.1, hk.2.2.2⟩

/-- Witness for C8: a concrete upsert keeps the key fields, and a concrete
perform call keeps the row's amount, donation id and create time. -/
theorem claim_C8_witness :
    (saveTransaction wStore (performTx wTx 60)).transactions.map keyFields =
      wStore.transactions.map keyFields ∧
    ∃ tx3, getTransaction (runSeq wStore [(60, Call.perform "tx1")]) "tx1" =
        some tx3 ∧ tx3.amount = wTx.amount ∧ tx3.account = wTx.account ∧
        tx3.create_time = wTx.create_time := by
  constructor
  · exact claim_C8_write_once_fields.1 wStore (performTx wTx 60) wTx (by decide)
  · exact claim_C8_write_once_fields.2 wStore "tx1" wTx
      [(60, Call.perform "tx1")] (by decide)

/-- C9 counterexample: with `to = 0` the source substitutes the current time
for the upper bound (`to || now()`), so `GetStatement` at time 10 with range
`[0, 0]` returns a transaction whose `create_time` (5) is outside `[0, 0]`,
refuting the claim as stated for every from/to pair. -/
theorem claim_C9_counterexample :
    (handleStatement cStore 10 0 0).2 = .ok [txResponse wTx5] ∧
    ¬(wTx5.create_time ≤ 0) := ⟨rfl, by decide⟩

/-- C9 (amended): for every from/to pair whose `to` is non-zero,
`GetStatement` returns exactly the transactions whose `create_time` lies in
the inclusive range `[from, to]`, as snapshots sorted ascending by
`create_time`; a zero (absent) `to` instead defaults to the current time. -/
theorem claim_C9_statement_range (s : Store) (t lo hi : Nat) (hhi : hi ≠ 0) :
    handleStatement s t lo hi =
      (s, .ok ((listTransactions s lo hi).map txResponse)) ∧
    List.Perm (listTransactions s lo hi)
      (s.transactions.filter
        (fun r => lo ≤ r.create_time ∧ r.create_time ≤ hi)) ∧
    List.Pairwise leCT (listTransactions s lo hi) := by
  refine ⟨?_, listTransactions_perm s lo hi, listTransactions_pairwise s lo hi⟩
  unfold handleStatement
  rw [if_neg hhi]
  by_cases hlo : lo = 0
  · rw [if_pos hlo, hlo]
  · rw [if_neg hlo]

/-- Witness for C9: the amended range scan at a concrete store and non-zero
upper bound. -/
theorem claim_C9_witness :
    handleStatement cStore 10 0 20 =
      (cStore, .ok ((listTransactions cStore 0 20).map txResponse)) ∧
    List.Pairwise leCT (listTransactions cStore 0 20) := by
  have h := claim_C9_statement_range cStore 10 0 20 (by decide)
  exact ⟨h.1, h.2.2⟩

end Payme
